import Mathlib

/-!
# A verification model of `cpc` (src/cpc/__init__.py)

`cpc` is a small command-line dispatcher that copies data from a source
path/URL to a destination.  It classifies the source/destination strings
(URL vs. remote `host:path` vs. local path), builds an external command
line (`curl`, `rsync`, `atool`) for the chosen transport, optionally
extracts a downloaded archive, and optionally flattens ("spills") chains
of single-child directories.

This file is a shallow embedding of that program:

* the string classifiers `is_url` and `is_remote_path` are modelled as
  executable functions on `List Char` / `String`;
* the command-building functions `download_http`, `copy_remote`,
  `copy_local` and `handle_extract` are modelled by the argument lists
  they construct;
* `main`'s control flow (transport selection, extraction, the
  `try`/`finally` cleanup of the temporary archive path, and process
  exit codes) is modelled as a function from an environment — which
  records the outcomes of the external commands, treated as oracles —
  to an outcome record (exit code, commands spawned, diagnostics
  printed, and whether the temporary path is still present);
* the spill loop `handle_spill` is modelled as a step function and a
  fuel-indexed loop over an inductive directory-tree filesystem.
-/

namespace Cpc

/-!
## URL classification

Model of `is_url` (src/cpc/__init__.py lines 13-18):

```python
def is_url(s: str) -> bool:
    try:
        result = urlparse(s)
        return result.scheme in ('http', 'https', 'ftp')
    except:
        return False
```

`urlparse` is CPython's `urllib.parse.urlparse` (external to the repo).
We model the part of it that determines `result.scheme` and whether a
`ValueError` is raised, following CPython 3.11 `urllib.parse.urlsplit`:

1. the url is left-stripped of C0-control/space characters and all
   tab/CR/LF characters are removed;
2. if the string has a `:` at index `i > 0`, the first character is an
   ASCII letter, and every character before the `:` is a scheme
   character (`[A-Za-z0-9+.-]`), then the scheme is that lowercased
   prefix and parsing continues after the `:`; otherwise the scheme is
   empty;
3. if the remainder starts with `//`, the netloc is the run up to the
   next `/`, `?` or `#`; if the netloc contains `[` without `]` or
   `]` without `[`, `ValueError("Invalid IPv6 URL")` is raised.

Later CPython versions validate the bracketed host further; every such
extra failure is also caught by the bare `except` of `is_url`, so the
claims about `is_url` are insensitive to it.
-/

def isSchemeChar (c : Char) : Bool :=
  c.isAlpha || c.isDigit || c == '+' || c == '-' || c == '.'

/-- `_WHATWG_C0_CONTROL_OR_SPACE`: code points `U+0000`–`U+0020`. -/
def isC0OrSpace (c : Char) : Bool :=
  decide (c.toNat ≤ 32)

/-- The sanitisation CPython's `urlsplit` applies to its input: left-strip
C0-control/space characters, then remove every tab, CR and LF. -/
def stripUnsafe (l : List Char) : List Char :=
  (l.dropWhile isC0OrSpace).filter fun c => !(c == '\t' || c == '\r' || c == '\n')

/-- Split a character list at its first `':'` (Python `url.find(':')`):
`some (before, after)` when a colon exists, `none` otherwise. -/
def splitOnColon : List Char → Option (List Char × List Char)
  | [] => none
  | c :: rest =>
    if c == ':' then some ([], rest)
    else
      match splitOnColon rest with
      | none => none
      | some (a, b) => some (c :: a, b)

/-- Scheme extraction of `urlsplit`: returns `(scheme, remainder)`.  The
scheme is nonempty only when a colon exists at a positive index, the first
character is an ASCII letter, and everything before the colon is a scheme
character; the scheme is lowercased. -/
def schemeOf (l : List Char) : List Char × List Char :=
  match splitOnColon l with
  | none => ([], l)
  | some (pre, post) =>
    match pre with
    | [] => ([], l)
    | c0 :: _ =>
      if c0.isAlpha && pre.all isSchemeChar then (pre.map Char.toLower, post)
      else ([], l)

/-- Model of `urllib.parse.urlparse` restricted to what `is_url` observes:
either the (possibly empty) scheme, or an error (`ValueError`, e.g.
"Invalid IPv6 URL" when the netloc has mismatched square brackets). -/
def urlparseScheme (s : String) : Except Unit (List Char) :=
  let l := stripUnsafe s.toList
  let (scheme, rest) := schemeOf l
  match rest with
  | '/' :: '/' :: r =>
    let netloc := r.takeWhile fun c => !(c == '/' || c == '?' || c == '#')
    if (netloc.contains '[') != (netloc.contains ']') then .error ()
    else .ok scheme
  | _ => .ok scheme

/-- `is_url` (lines 13-18): the scheme test, with every parse error
mapped to `false` by the bare `except`. -/
def is_url (s : String) : Bool :=
  match urlparseScheme s with
  | .ok sch => sch == "http".toList || sch == "https".toList || sch == "ftp".toList
  | .error _ => false

/-!
## Remote-path classification

Model of `is_remote_path` (lines 20-21):

```python
def is_remote_path(s: str) -> bool:
    return re.match(r'^(?:[a-zA-Z0-9_.-]+@)?[a-zA-Z0-9_.-]+:.+', s) is not None
```

The character class `[a-zA-Z0-9_.-]` contains neither `@` nor `:`, so the
greedy match of each `[a-zA-Z0-9_.-]+` token is forced: a token must be
the maximal run of class characters at its position (stopping short would
leave a class character where the regex next requires `@` or `:`, and no
backtracking can recover).  Hence the regex matches exactly when:

* the maximal class-character run at the start is nonempty and is
  followed by `@`, and after that `@` there is a nonempty maximal run of
  class characters followed by `:` followed by a character other than
  `'\n'` (the regex `.` never matches a newline, and the pattern is not
  end-anchored, so only the character right after the `:` matters); or
* the maximal run at the start is nonempty and is itself followed by
  `:` and then a non-newline character.

If the start run is followed by `@` but the part after the `@` fails,
dropping the optional group cannot help: the host token would then have
to stop at the `@`, where the regex requires `:`.
-/

def isClassChar (c : Char) : Bool :=
  c.isAlpha || c.isDigit || c == '_' || c == '.' || c == '-'

/-- Maximal run of `isClassChar` characters at the head, and the rest. -/
def spanClass : List Char → List Char × List Char
  | [] => ([], [])
  | c :: rest =>
    if isClassChar c then (c :: (spanClass rest).1, (spanClass rest).2)
    else ([], c :: rest)

/-- Matches `[a-zA-Z0-9_.-]+:.+` at the head of the list: a nonempty
class run, a `':'`, and then a character other than `'\n'` (`.` does not
match a newline; the pattern is not end-anchored). -/
def hostColonTail (l : List Char) : Bool :=
  match spanClass l with
  | (_ :: _, r0 :: r1 :: _) => r0 == ':' && r1 != '\n'
  | _ => false

/-- Matches `^(?:[a-zA-Z0-9_.-]+@)?[a-zA-Z0-9_.-]+:.+` at the head: when
the leading class run is nonempty and followed by `'@'`, the optional
group is taken (its `+` token cannot reach past the first `'@'`, and if
the remainder then fails, dropping the group cannot help, because the
host token would have to stop at that `'@'` where `':'` is required);
otherwise only the group-less alternative remains. -/
def is_remote_pathL (l : List Char) : Bool :=
  match spanClass l with
  | (_ :: _, r0 :: rest2) =>
    if r0 == '@' then hostColonTail rest2 else hostColonTail l
  | _ => hostColonTail l

/-- `is_remote_path` (lines 20-21). -/
def is_remote_path (s : String) : Bool :=
  is_remote_pathL s.toList

/-!
## Transport selection (`main`, lines 89-94)
-/

/-- The three transport strategies of the dispatcher. -/
inductive Transport where
  | http
  | remote
  | local
deriving DecidableEq

/-- The transport decision of `main` (lines 89-94): URL source first,
then remote source-or-destination, then local. -/
def selectTransport (src dst : String) : Transport :=
  if is_url src then .http
  else if is_remote_path src || is_remote_path dst then .remote
  else .local

example : is_url "http://example.com/file.tar.gz" = true := by decide
example : is_url "HTTP://x" = true := by decide
example : is_url "host:dir/" = false := by decide
example : is_url "ftp://h" = true := by decide
example : urlparseScheme "http://[" = .error () := rfl
example : is_url "http://[" = false := by decide
example : is_remote_path "host:/remote/dir" = true := by decide
example : is_remote_path "user@host:path" = true := by decide
example : is_remote_path "host:\n" = false := by decide
example : is_remote_path "./local/" = false := by decide
example : selectTransport "host:/remote/dir" "./local/" = .remote := by decide

/-!
## Command construction

The three transport strategies and the extractor each build an argument
list for an external tool (lines 31-45 and 47-54):

```python
def download_http(src, dst, extra_opts):
    dst_path = Path(dst)
    if dst_path.is_dir():
        command = ['curl', '-OJL', src] + ['--output-dir', str(dst_path)] + extra_opts
    else:
        command = ['curl', '-L', src, '-o', str(dst_path)] + extra_opts
    execute_command(command)

def copy_remote(src, dst, extra_opts):
    execute_command(['rsync', '-a', '--info=progress2'] + extra_opts + [src, dst])

def copy_local(src, dst, extra_opts):
    execute_command(['rsync', '-a'] + extra_opts + [src, dst])
```

`dst_path.is_dir()` queries the real filesystem; it enters the model as
the Boolean parameter `dstIsDir`.
-/

/-- Argument list built by `download_http` (lines 31-37), given whether
the destination is an existing directory. -/
def download_http_command (src dst : String) (dstIsDir : Bool) (extra : List String) :
    List String :=
  if dstIsDir then ["curl", "-OJL", src] ++ ["--output-dir", dst] ++ extra
  else ["curl", "-L", src, "-o", dst] ++ extra

/-- Argument list built by `copy_remote` (lines 39-41). -/
def copy_remote_command (src dst : String) (extra : List String) : List String :=
  ["rsync", "-a", "--info=progress2"] ++ extra ++ [src, dst]

/-- Argument list built by `copy_local` (lines 43-45). -/
def copy_local_command (src dst : String) (extra : List String) : List String :=
  ["rsync", "-a"] ++ extra ++ [src, dst]

/-- Argument list built by `handle_extract` (line 53) when its
precondition holds. -/
def handle_extract_command (tmp dst : String) : List String :=
  ["atool", tmp, "--extract-to", dst]

/-!
## A semantic reading of the curl flags

To state what the constructed `curl` command *means* (rather than just
what it looks like), we interpret an argument list the way curl's
command-line parser does for the flags this program uses: `-o FILE`,
`--output-dir DIR`, and clusters of the short Boolean flags `-L`
(follow redirects), `-O` (write to a file named like the remote one) and
`-J` (prefer the server-suggested `Content-Disposition` filename).
-/

structure CurlConfig where
  followRedirects : Bool := false
  remoteName : Bool := false
  remoteHeaderName : Bool := false
  outputDir : Option String := none
  outputFile : Option String := none
deriving DecidableEq

/-- Apply one short flag character from a cluster such as `-OJL`. -/
def applyShortFlag (c : CurlConfig) (ch : Char) : CurlConfig :=
  if ch == 'L' then { c with followRedirects := true }
  else if ch == 'O' then { c with remoteName := true }
  else if ch == 'J' then { c with remoteHeaderName := true }
  else c

/-- Interpret a curl argument list (the part after the program name):
`-o` and `--output-dir` consume the following argument as their value;
any other argument starting with `-` is a cluster of short flags; the
rest are positional (the URL). -/
def parseCurlArgs : List String → CurlConfig → CurlConfig
  | [], cfg => cfg
  | a :: rest, cfg =>
    if a == "-o" then
      match rest with
      | f :: rest2 => parseCurlArgs rest2 { cfg with outputFile := some f }
      | [] => cfg
    else if a == "--output-dir" then
      match rest with
      | d :: rest2 => parseCurlArgs rest2 { cfg with outputDir := some d }
      | [] => cfg
    else
      match a.toList with
      | [] => parseCurlArgs rest cfg
      | ch :: flags =>
        if ch == '-' then parseCurlArgs rest (flags.foldl applyShortFlag cfg)
        else parseCurlArgs rest cfg

/-- Interpretation of a full command list `["curl", ...]`. -/
def curlParse (cmd : List String) : CurlConfig :=
  parseCurlArgs cmd.tail {}

/-!
## The `main` driver (lines 67-105)

```python
try:
    tmp_archive, actual_dest = None, None
    if should_extract:
        tmp_archive = tempfile.mktemp()
        dst, actual_dest = tmp_archive, dst

    if is_url(src):
        download_http(src, dst, extra_opts)
    elif is_remote_path(src) or is_remote_path(dst):
        copy_remote(src, dst, extra_opts)
    else:
        copy_local(src, dst, extra_opts)

    if should_extract:
        handle_extract(tmp_archive, actual_dest)
        dst = actual_dest
    if should_dig:
        handle_spill(dst)
finally:
    if tmp_archive is not None:
        os.unlink(tmp_archive)
```

together with `execute_command` (lines 23-29), which prints the command,
runs it, and on a non-zero exit prints a diagnostic and calls
`sys.exit(returncode)`, and `handle_extract` (lines 47-54), which exits
with code 1 when the temporary path is not a regular file.

The external commands are oracles: the model environment records the
exit code of the transport command, the exit code of `atool` (if it
runs), and what the transport left at the temporary path (`tempfile.mktemp`
only reserves a name — it creates nothing).

Python semantics captured by the model:

* `sys.exit(c)` raises `SystemExit`, so the `finally` block still runs;
* `os.unlink` removes a regular file; on a missing path it raises
  `FileNotFoundError`, and on a directory it raises an `OSError` and the
  directory is *not* removed;
* an exception raised inside `finally` while another exception is
  propagating replaces it, and an uncaught exception makes the
  interpreter exit with status 1.

In extraction mode `dst` is rebound to the temporary path *before* the
classifier runs, so the classifier sees the temporary path as the
destination; and `download_http`'s `dst_path.is_dir()` is then `False`
(the temporary path does not exist yet), which the model hard-codes.
`handle_spill` spawns no external process and is modelled separately; it
does not affect exit codes, spawned commands, or the temporary path.
-/

/-- What the filesystem holds at the temporary path when the `finally`
block runs (equivalently, after the transport has run: neither
`handle_extract` nor `handle_spill` touches the temporary path). -/
inductive TmpNode where
  | absent
  | file
  | dir
deriving DecidableEq

/-- Inputs of one run of `main`, external-command outcomes included. -/
structure Env where
  shouldExtract : Bool
  shouldDig : Bool
  src : String
  dst : String
  extraOpts : List String
  tmpName : String
  dstIsDir : Bool
  transportExit : Nat
  tmpNode : TmpNode
  extractExit : Nat

/-- Observable outcome of one run of `main`. -/
structure Outcome where
  exitCode : Nat
  commandsRun : List (List String)
  printed : List String
  tmpPresent : Bool
deriving DecidableEq

/-- `' '.join(command)` used by `execute_command`'s messages. -/
def joinArgs (cmd : List String) : String :=
  String.intercalate " " cmd

/-- The line `execute_command` prints before spawning (line 24). -/
def execMsg (cmd : List String) : String :=
  "Executing command: " ++ joinArgs cmd

/-- The diagnostic `execute_command` prints on a non-zero exit (line 28). -/
def errMsg (cmd : List String) : String :=
  "Error executing command: " ++ joinArgs cmd

/-- The destination string the transport actually receives (line 87). -/
def transportDst (e : Env) : String :=
  if e.shouldExtract then e.tmpName else e.dst

/-- The transport command `main` builds and spawns (lines 89-94). -/
def transportCmd (e : Env) : List String :=
  match selectTransport e.src (transportDst e) with
  | .http =>
    download_http_command e.src (transportDst e)
      (if e.shouldExtract then false else e.dstIsDir) e.extraOpts
  | .remote => copy_remote_command e.src (transportDst e) e.extraOpts
  | .local => copy_local_command e.src (transportDst e) e.extraOpts

/-- The `finally` block (lines 103-105): when a temporary path was
allocated, `os.unlink` it.  `pending` is the exit code travelling with a
propagating `SystemExit` (`none` when no exception is in flight). -/
def finallyCleanup (e : Env) (pending : Option Nat) (cmds : List (List String))
    (printed : List String) : Outcome :=
  if e.shouldExtract then
    match e.tmpNode with
    | .file => ⟨pending.getD 0, cmds, printed, false⟩
    | .absent => ⟨1, cmds, printed, false⟩
    | .dir => ⟨1, cmds, printed, true⟩
  else ⟨pending.getD 0, cmds, printed, false⟩

/-- One run of `main` (lines 83-105). -/
def mainRun (e : Env) : Outcome :=
  if e.transportExit ≠ 0 then
    finallyCleanup e (some e.transportExit) [transportCmd e]
      [execMsg (transportCmd e), errMsg (transportCmd e)]
  else if e.shouldExtract then
    if e.tmpNode ≠ .file then
      finallyCleanup e (some 1) [transportCmd e]
        [execMsg (transportCmd e), "Error: copied file is not valid"]
    else if e.extractExit ≠ 0 then
      finallyCleanup e (some e.extractExit)
        [transportCmd e, handle_extract_command e.tmpName e.dst]
        [execMsg (transportCmd e), execMsg (handle_extract_command e.tmpName e.dst),
          errMsg (handle_extract_command e.tmpName e.dst)]
    else
      finallyCleanup e none [transportCmd e, handle_extract_command e.tmpName e.dst]
        [execMsg (transportCmd e), execMsg (handle_extract_command e.tmpName e.dst)]
  else finallyCleanup e none [transportCmd e] [execMsg (transportCmd e)]

/-!
## The spill loop (`handle_spill`, lines 56-65)

```python
def handle_spill(dst: str):
    path = Path(dst)
    spill_dir = path.parent
    while path.is_dir():
        contents = list(path.iterdir())
        if len(contents) != 1:
            shutil.copytree(path, spill_dir, dirs_exist_ok=True)
            break
        content = contents[0]
        path = content.rename(spill_dir / content.name)
```

The filesystem is modelled as a finite tree of named entries.  `path`
starts as the destination, an entry of `spill_dir`, and after every
`rename` it is again an entry of `spill_dir`, so the loop state is the
entry list of `spill_dir` plus the name of the current entry.

* `content.rename(spill_dir / content.name)` moves the single entry out
  of the current directory (which stays behind as an empty directory)
  into `spill_dir`; the model gives it overwrite semantics at the target
  name (`os.rename` itself would raise if the target name were occupied
  by a non-empty directory — the OS-failure case is outside the model,
  matching the spec's reading of the step as a move).
* `shutil.copytree(path, spill_dir, dirs_exist_ok=True)` recursively
  copies the entries of `path` into `spill_dir`: entries of `spill_dir`
  absent from `path` are kept, files are overwritten on conflict, and
  directories present on both sides are merged recursively.  The source
  of the copy is left in place.
-/

/-- A directory tree: a node is a regular file or a directory with a
list of named children. -/
inductive Node where
  | file
  | dir (entries : List (String × Node))

mutual

/-- Number of nodes in a tree (used as the loop variant). -/
def nodeSize : Node → Nat
  | .file => 1
  | .dir es => 1 + entriesSize es

/-- Total size of an entry list. -/
def entriesSize : List (String × Node) → Nat
  | [] => 0
  | (_, v) :: rest => nodeSize v + entriesSize rest

end

/-- Look a name up in an entry list. -/
def lookupEntry : List (String × Node) → String → Option Node
  | [], _ => none
  | (m, v) :: rest, n => if m = n then some v else lookupEntry rest n

/-- Bind a name in an entry list (replacing an existing binding, else
appending). -/
def setEntry : List (String × Node) → String → Node → List (String × Node)
  | [], n, v => [(n, v)]
  | (m, w) :: rest, n, v =>
    if m = n then (m, v) :: rest else (m, w) :: setEntry rest n v

/-- `shutil.copytree(·, ·, dirs_exist_ok=True)` on entry lists: merge the
source entries (second argument) into the destination entries, keeping
destination entries that do not conflict, overwriting files on conflict,
and merging directories recursively. -/
def mergeEntries (dst : List (String × Node)) : List (String × Node) → List (String × Node)
  | [] => dst
  | (n, .file) :: rest => mergeEntries (setEntry dst n .file) rest
  | (n, .dir ses) :: rest =>
    let ex := match lookupEntry dst n with
      | some (.dir des) => des
      | _ => []
    mergeEntries (setEntry dst n (.dir (mergeEntries ex ses))) rest
termination_by l => entriesSize l
decreasing_by
  all_goals simp [entriesSize, nodeSize]
  omega

/-- Loop state of `handle_spill`: the entries of `spill_dir` and the name
of the current `path` inside it. -/
structure SpillState where
  parent : List (String × Node)
  cur : String

/-- Outcome of one test of the `while` condition plus (when the
condition holds) one execution of the loop body. -/
inductive SpillStep where
  | notDir
  | merged (parent : List (String × Node))
  | moved (s : SpillState)

/-- One iteration of `handle_spill`'s loop: `notDir` when the current
path is not a directory (condition false, body does not run), `merged`
when the body copytrees and breaks, `moved` when the body renames the
single entry up into `spill_dir` and continues with it. -/
def spillStep (s : SpillState) : SpillStep :=
  match lookupEntry s.parent s.cur with
  | none => .notDir
  | some .file => .notDir
  | some (.dir es) =>
    match es with
    | [(n, v)] => .moved ⟨setEntry (setEntry s.parent s.cur (.dir [])) n v, n⟩
    | _ => .merged (mergeEntries s.parent es)

/-- The whole loop, with fuel; returns the final entries of `spill_dir`
together with the number of times the loop body ran, or `none` if the
fuel ran out. -/
def spillRun : Nat → SpillState → Option (List (String × Node) × Nat)
  | 0, _ => none
  | fuel + 1, s =>
    match spillStep s with
    | .notDir => some (s.parent, 0)
    | .merged p => some (p, 1)
    | .moved s2 =>
      match spillRun fuel s2 with
      | none => none
      | some (p, k) => some (p, k + 1)

/-- Size of the tree at the current path (`0` when the path is absent):
the variant that shrinks at every `moved` step. -/
def curSize (s : SpillState) : Nat :=
  match lookupEntry s.parent s.cur with
  | none => 0
  | some v => nodeSize v

/-!
## Helper lemmas
-/

lemma spanClass_append (l r : List Char) (c : Char)
    (hl : l.all isClassChar = true) (hc : isClassChar c = false) :
    spanClass (l ++ c :: r) = (l, c :: r) := by
  induction l with
  | nil => simp [spanClass, hc]
  | cons x xs ih =>
    rw [List.all_cons, Bool.and_eq_true] at hl
    simp [spanClass, hl.1, ih hl.2]

/-!
## Claims
-/

/-- Claim C1: for every invocation, exactly one transport is selected by
first matching rule: a URL source selects HTTP download; otherwise a
remote source or destination selects remote sync; otherwise local sync
is selected. -/
theorem C1_transport_selection_first_match (src dst : String) :
    (selectTransport src dst = .http ↔ is_url src = true) ∧
    (selectTransport src dst = .remote ↔
      is_url src = false ∧ (is_remote_path src || is_remote_path dst) = true) ∧
    (selectTransport src dst = .local ↔
      is_url src = false ∧ (is_remote_path src || is_remote_path dst) = false) := by
  cases hu : is_url src <;>
    cases hr : (is_remote_path src || is_remote_path dst) <;>
      simp [selectTransport, hu, hr]

/-- Claim C6: the URL classifier is a total Boolean function that
returns `true` exactly when the modelled `urlparse` succeeds with scheme
`http`, `https` or `ftp`, and every parse failure yields `false`
(the bare `except` of `is_url` never lets an exception escape). -/
theorem C6_is_url_total_and_scheme (s : String) :
    (is_url s = true ↔ ∃ sch, urlparseScheme s = .ok sch ∧
      (sch = "http".toList ∨ sch = "https".toList ∨ sch = "ftp".toList)) ∧
    (∀ err : Unit, urlparseScheme s = .error err → is_url s = false) := by
  constructor
  · cases h : urlparseScheme s with
    | ok sch => simp [is_url, h, or_assoc]
    | error e => simp [is_url, h]
  · intro err h
    simp [is_url, h]

/-- Witness for C6 at `"http://["`, whose netloc has `[` without `]`,
so the modelled `urlparse` raises `ValueError("Invalid IPv6 URL")`. -/
theorem C6_witness : is_url "http://[" = false :=
  (C6_is_url_total_and_scheme "http://[").2 () rfl

/-- Claim C7 counterexample: `"host:" ++ "\n"` has the shape the claim
quantifies over — `"host"` is a nonempty token of allowed characters and
the path `"\n"` is a nonempty string — yet `is_remote_path` returns
`false`, because the regex atom `.` never matches a newline, so `.+`
fails on a path whose first character is `'\n'`. -/
theorem C7_counterexample :
    ("host".toList.all isClassChar = true ∧ "host".toList ≠ [] ∧
      "\n".toList ≠ [] ∧ "host:\n".toList = "host".toList ++ ':' :: "\n".toList) ∧
    is_remote_path "host:\n" = false :=
  ⟨⟨by decide, by decide, by decide, by decide⟩, by decide⟩

/-- Claim C7 (amended): for all strings of the form `user@host:path` or
`host:path` — optional `user@` prefix, nonempty host token over
`[A-Za-z0-9_.-]`, a `':'`, and one or more following characters *the
first of which is not a newline* — the remote-path classifier returns
`true`.  (The newline proviso is forced by `C7_counterexample`: the
regex `.+` must match at least one character right after the `':'` and
`.` does not match `'\n'`; later characters are unconstrained because
the pattern is not end-anchored.) -/
theorem C7_remote_path_amended (user host : List Char) (c : Char) (path : List Char)
    (hu : user.all isClassChar = true) (hu0 : user ≠ [])
    (hh : host.all isClassChar = true) (hh0 : host ≠ [])
    (hc : c ≠ '\n') :
    is_remote_pathL (user ++ '@' :: (host ++ ':' :: c :: path)) = true ∧
    is_remote_pathL (host ++ ':' :: c :: path) = true := by
  have hAt : isClassChar '@' = false := by decide
  have hColon : isClassChar ':' = false := by decide
  obtain ⟨h0, hs, rfl⟩ := List.exists_cons_of_ne_nil hh0
  have hHost : hostColonTail ((h0 :: hs) ++ ':' :: c :: path) = true := by
    unfold hostColonTail
    rw [spanClass_append (h0 :: hs) (c :: path) ':' hh hColon]
    simp [hc]
  constructor
  · obtain ⟨u0, us, rfl⟩ := List.exists_cons_of_ne_nil hu0
    unfold is_remote_pathL
    rw [spanClass_append (u0 :: us) ((h0 :: hs) ++ ':' :: c :: path) '@' hu hAt]
    simpa using hHost
  · unfold is_remote_pathL
    rw [spanClass_append (h0 :: hs) (c :: path) ':' hh hColon]
    simpa using hHost

/-- Witness for C7 (amended) at `user = "u"`, `host = "h"`,
`path = "p"`. -/
theorem C7_witness :
    is_remote_pathL ("u".toList ++ '@' :: ("h".toList ++ ':' :: 'p' :: [])) = true ∧
    is_remote_pathL ("h".toList ++ ':' :: 'p' :: []) = true :=
  C7_remote_path_amended "u".toList "h".toList 'p' []
    (by decide) (by decide) (by decide) (by decide) (by decide)

/-- A positional argument (one not starting with `-`) is skipped by the
curl argument interpretation. -/
lemma parseCurlArgs_skip (a : String) (rest : List String) (cfg : CurlConfig)
    (h : a.toList.head? ≠ some '-') :
    parseCurlArgs (a :: rest) cfg = parseCurlArgs rest cfg := by
  have h1 : (a == "-o") = false := by
    cases ha : a == "-o"
    · rfl
    · exact absurd (by rw [eq_of_beq ha]; rfl) h
  have h2 : (a == "--output-dir") = false := by
    cases ha : a == "--output-dir"
    · rfl
    · exact absurd (by rw [eq_of_beq ha]; rfl) h
  rw [parseCurlArgs.eq_def]
  simp only [h1, h2, Bool.false_eq_true, if_false]
  cases hl : a.toList with
  | nil => rfl
  | cons ch flags =>
    have hch : (ch == '-') = false := by
      cases hb : ch == '-'
      · rfl
      · exact absurd (by rw [hl, eq_of_beq hb]; rfl) h
    simp [hch]

/-- Claim C8: the HTTP download strategy builds, for a destination that
is an existing directory, `curl -OJL SRC --output-dir DST` (save-to-
directory with the server-suggested filename honored via `-O`/`-J`), and
otherwise `curl -L SRC -o DST` (fetch to the exact destination file); in
both commands redirects are followed (`-L`) and the user-supplied extra
options come after the transport-specific flags.  The curl-semantics
conjunct assumes the source string is not itself option-like (curl, like
the model, would parse a leading-`-` source as a flag). -/
theorem C8_download_http (src dst : String) (extra : List String) :
    (download_http_command src dst true extra =
      ["curl", "-OJL", src, "--output-dir", dst] ++ extra) ∧
    (download_http_command src dst false extra =
      ["curl", "-L", src, "-o", dst] ++ extra) ∧
    (src.toList.head? ≠ some '-' →
      curlParse ["curl", "-OJL", src, "--output-dir", dst] =
        { followRedirects := true, remoteName := true, remoteHeaderName := true,
          outputDir := some dst, outputFile := none } ∧
      curlParse ["curl", "-L", src, "-o", dst] =
        { followRedirects := true, remoteName := false, remoteHeaderName := false,
          outputDir := none, outputFile := some dst }) := by
  refine ⟨rfl, rfl, fun h => ⟨?_, ?_⟩⟩
  · calc curlParse ["curl", "-OJL", src, "--output-dir", dst]
        = parseCurlArgs [src, "--output-dir", dst]
            { followRedirects := true, remoteName := true, remoteHeaderName := true } := rfl
      _ = parseCurlArgs ["--output-dir", dst]
            { followRedirects := true, remoteName := true, remoteHeaderName := true } :=
        parseCurlArgs_skip src _ _ h
      _ = { followRedirects := true, remoteName := true, remoteHeaderName := true,
            outputDir := some dst, outputFile := none } := rfl
  · calc curlParse ["curl", "-L", src, "-o", dst]
        = parseCurlArgs [src, "-o", dst] { followRedirects := true } := rfl
      _ = parseCurlArgs ["-o", dst] { followRedirects := true } :=
        parseCurlArgs_skip src _ _ h
      _ = { followRedirects := true, remoteName := false, remoteHeaderName := false,
            outputDir := none, outputFile := some dst } := rfl

/-- Witness for C8 at the spec's example source and an existing
directory destination. -/
theorem C8_witness :
    curlParse ["curl", "-OJL", "https://example.com/file.tar.gz", "--output-dir", "/data"] =
      { followRedirects := true, remoteName := true, remoteHeaderName := true,
        outputDir := some "/data", outputFile := none } :=
  ((C8_download_http "https://example.com/file.tar.gz" "/data" []).2.2 (by decide)).1

/-- Claim C9: both sync strategies build an `rsync` command in archive
mode (`-a`) with the extra options spliced in before the `SRC DST`
positional arguments, and the remote command additionally carries the
progress flag `--info=progress2`, which the local command does not
(provided, of course, that the caller did not pass it among the extra
options or as a path). -/
theorem C9_sync_commands (src dst : String) (extra : List String) :
    copy_remote_command src dst extra =
      ["rsync", "-a", "--info=progress2"] ++ extra ++ [src, dst] ∧
    copy_local_command src dst extra = ["rsync", "-a"] ++ extra ++ [src, dst] ∧
    "-a" ∈ copy_remote_command src dst extra ∧
    "-a" ∈ copy_local_command src dst extra ∧
    "--info=progress2" ∈ copy_remote_command src dst extra ∧
    ("--info=progress2" ∉ extra → src ≠ "--info=progress2" → dst ≠ "--info=progress2" →
      "--info=progress2" ∉ copy_local_command src dst extra) := by
  refine ⟨rfl, rfl, ?_, ?_, ?_, ?_⟩
  · simp [copy_remote_command]
  · simp [copy_local_command]
  · simp [copy_remote_command]
  · intro h1 h2 h3 hmem
    rw [copy_local_command] at hmem
    rcases List.mem_append.1 hmem with hAB | hsd
    · rcases List.mem_append.1 hAB with hr | hx
      · exact absurd hr (by decide)
      · exact h1 hx
    · cases hsd with
        | head => exact h2 rfl
        | tail _ hsd2 =>
          cases hsd2 with
          | head => exact h3 rfl
          | tail _ hsd3 => cases hsd3

/-- Witness for C9: with no extra options and plain paths the local
command does not carry the progress flag. -/
theorem C9_witness :
    "--info=progress2" ∉ copy_local_command "./a" "./b" [] :=
  (C9_sync_commands "./a" "./b" []).2.2.2.2.2 (by simp) (by decide) (by decide)

/-!
### Helper lemmas about `finallyCleanup` and `mainRun`
-/

lemma finallyCleanup_commandsRun (e : Env) (p : Option Nat) (cmds : List (List String))
    (pr : List String) : (finallyCleanup e p cmds pr).commandsRun = cmds := by
  cases hx : e.shouldExtract <;> cases ht : e.tmpNode <;> simp [finallyCleanup, hx, ht]

lemma finallyCleanup_printed (e : Env) (p : Option Nat) (cmds : List (List String))
    (pr : List String) : (finallyCleanup e p cmds pr).printed = pr := by
  cases hx : e.shouldExtract <;> cases ht : e.tmpNode <;> simp [finallyCleanup, hx, ht]

lemma finallyCleanup_exitCode_noextract (e : Env) (p : Option Nat)
    (cmds : List (List String)) (pr : List String) (hx : e.shouldExtract = false) :
    (finallyCleanup e p cmds pr).exitCode = p.getD 0 := by
  simp [finallyCleanup, hx]

lemma finallyCleanup_exitCode_file (e : Env) (p : Option Nat)
    (cmds : List (List String)) (pr : List String) (ht : e.tmpNode = .file) :
    (finallyCleanup e p cmds pr).exitCode = p.getD 0 := by
  cases hx : e.shouldExtract <;> simp [finallyCleanup, hx, ht]

lemma finallyCleanup_exitCode_bad (e : Env) (p : Option Nat)
    (cmds : List (List String)) (pr : List String)
    (hx : e.shouldExtract = true) (hn : e.tmpNode ≠ .file) :
    (finallyCleanup e p cmds pr).exitCode = 1 := by
  cases ht : e.tmpNode
  · simp [finallyCleanup, hx, ht]
  · exact absurd ht hn
  · simp [finallyCleanup, hx, ht]

lemma finallyCleanup_tmpPresent_false (e : Env) (p : Option Nat)
    (cmds : List (List String)) (pr : List String) (hd : e.tmpNode ≠ .dir) :
    (finallyCleanup e p cmds pr).tmpPresent = false := by
  cases hx : e.shouldExtract <;> cases ht : e.tmpNode <;>
    simp [finallyCleanup, hx, ht]
  exact absurd ht hd

lemma mainRun_shape (e : Env) :
    ∃ p cmds pr, mainRun e = finallyCleanup e p cmds pr := by
  unfold mainRun
  split
  · exact ⟨_, _, _, rfl⟩
  · split
    · split
      · exact ⟨_, _, _, rfl⟩
      · split
        · exact ⟨_, _, _, rfl⟩
        · exact ⟨_, _, _, rfl⟩
    · exact ⟨_, _, _, rfl⟩

lemma mainRun_transport_fail (e : Env) (h : e.transportExit ≠ 0) :
    mainRun e = finallyCleanup e (some e.transportExit) [transportCmd e]
      [execMsg (transportCmd e), errMsg (transportCmd e)] := by
  unfold mainRun
  simp [h]

lemma mainRun_success_noextract (e : Env) (ht : e.transportExit = 0)
    (hx : e.shouldExtract = false) :
    mainRun e = finallyCleanup e none [transportCmd e] [execMsg (transportCmd e)] := by
  unfold mainRun
  simp [ht, hx]

lemma mainRun_precondition_fail (e : Env) (ht : e.transportExit = 0)
    (hx : e.shouldExtract = true) (hn : e.tmpNode ≠ .file) :
    mainRun e = finallyCleanup e (some 1) [transportCmd e]
      [execMsg (transportCmd e), "Error: copied file is not valid"] := by
  unfold mainRun
  simp [ht, hx, hn]

lemma mainRun_extract_fail (e : Env) (ht : e.transportExit = 0)
    (hx : e.shouldExtract = true) (hf : e.tmpNode = .file) (ha : e.extractExit ≠ 0) :
    mainRun e = finallyCleanup e (some e.extractExit)
      [transportCmd e, handle_extract_command e.tmpName e.dst]
      [execMsg (transportCmd e), execMsg (handle_extract_command e.tmpName e.dst),
        errMsg (handle_extract_command e.tmpName e.dst)] := by
  unfold mainRun
  simp [ht, hx, hf, ha]

lemma mainRun_success_extract (e : Env) (ht : e.transportExit = 0)
    (hx : e.shouldExtract = true) (hf : e.tmpNode = .file) (ha : e.extractExit = 0) :
    mainRun e = finallyCleanup e none
      [transportCmd e, handle_extract_command e.tmpName e.dst]
      [execMsg (transportCmd e), execMsg (handle_extract_command e.tmpName e.dst)] := by
  unfold mainRun
  simp [ht, hx, hf, ha]

/-- Every transport command starts with `curl` or `rsync`. -/
lemma transportCmd_head (e : Env) :
    (transportCmd e).head? = some "curl" ∨ (transportCmd e).head? = some "rsync" := by
  unfold transportCmd
  split
  · left
    unfold download_http_command
    repeat' split
    all_goals rfl
  · right; rfl
  · right; rfl

/-- Claim C5: when extraction is requested and the transport left
something other than a regular file at the temporary path (a directory,
or nothing at all), the program exits with code 1, prints a diagnostic,
and never invokes the archive-extraction command. -/
theorem C5_extract_precondition_fail (e : Env)
    (hx : e.shouldExtract = true) (ht : e.transportExit = 0) (hn : e.tmpNode ≠ .file) :
    (mainRun e).exitCode = 1 ∧
    (mainRun e).commandsRun = [transportCmd e] ∧
    (∀ c ∈ (mainRun e).commandsRun, c.head? ≠ some "atool") ∧
    "Error: copied file is not valid" ∈ (mainRun e).printed := by
  rw [mainRun_precondition_fail e ht hx hn]
  refine ⟨finallyCleanup_exitCode_bad e _ _ _ hx hn,
    finallyCleanup_commandsRun e _ _ _, ?_, ?_⟩
  · intro c hc habs
    rw [finallyCleanup_commandsRun] at hc
    rcases List.mem_singleton.1 hc with rfl
    rcases transportCmd_head e with hh | hh <;> rw [habs] at hh <;>
      exact absurd (Option.some.inj hh) (by decide)
  · rw [finallyCleanup_printed]
    simp

/-- Oracle for the C5 witness: extraction mode, the transport (curl, on
a URL source) exits 0 but leaves nothing at the temporary path. -/
def envC5 : Env :=
  { shouldExtract := true, shouldDig := false, src := "http://h/a.zip", dst := "./",
    extraOpts := [], tmpName := "/tmp/cpc-w5", dstIsDir := false,
    transportExit := 0, tmpNode := .absent, extractExit := 0 }

/-- Witness for C5 at the concrete environment `envC5`. -/
theorem C5_witness :
    (mainRun envC5).exitCode = 1 ∧
    "Error: copied file is not valid" ∈ (mainRun envC5).printed :=
  ⟨(C5_extract_precondition_fail envC5 rfl rfl (by decide)).1,
    (C5_extract_precondition_fail envC5 rfl rfl (by decide)).2.2.2⟩

/-- Oracle for the C2 counterexample: extraction mode with a remote
directory source — `rsync -a host:dir/ TMP` creates a *directory* at the
temporary path and exits 0. -/
def envC2 : Env :=
  { shouldExtract := true, shouldDig := false, src := "host:dir/", dst := "./",
    extraOpts := [], tmpName := "/tmp/cpc-c2", dstIsDir := false,
    transportExit := 0, tmpNode := .dir, extractExit := 0 }

/-- Claim C2 counterexample: in extraction mode, when the transport
leaves a directory at the temporary path, the `finally` block's
`os.unlink` raises (it does not remove directories) and the temporary
path is still present after the process exits — the claimed
"absent on every exit path" fails on the extraction-precondition-failure
path. -/
theorem C2_counterexample :
    envC2.shouldExtract = true ∧ (mainRun envC2).tmpPresent = true :=
  ⟨rfl, by decide⟩

/-- Claim C2 (amended): whenever extraction mode is enabled, the
temporary path is absent from the filesystem after the process exits on
every exit path — success, transport failure, extraction-precondition
failure and extraction failure — *provided the transport did not leave a
directory there*; a directory at the temporary path survives, because
`os.unlink` cannot remove it (forced by `C2_counterexample`). -/
theorem C2_tmp_removed_amended (e : Env)
    (_hx : e.shouldExtract = true) (hd : e.tmpNode ≠ .dir) :
    (mainRun e).tmpPresent = false := by
  obtain ⟨p, cmds, pr, hrun⟩ := mainRun_shape e
  rw [hrun]
  exact finallyCleanup_tmpPresent_false e p cmds pr hd

/-- Oracle for the C2 witness: a failed transport that still produced a
regular file at the temporary path. -/
def envC2w : Env :=
  { shouldExtract := true, shouldDig := false, src := "http://h/b.zip", dst := "./",
    extraOpts := [], tmpName := "/tmp/cpc-w2", dstIsDir := false,
    transportExit := 7, tmpNode := .file, extractExit := 0 }

/-- Witness for C2 (amended) at the concrete environment `envC2w`. -/
theorem C2_witness : (mainRun envC2w).tmpPresent = false :=
  C2_tmp_removed_amended envC2w rfl (by decide)

/-- Oracle for the C3 counterexample: extraction mode, remote-sync
transport fails with exit code 23 (e.g. `rsync host:missing.tar.gz TMP`
with a nonexistent remote file) and creates nothing at the temporary
path. -/
def envC3 : Env :=
  { shouldExtract := true, shouldDig := false, src := "host:missing.tar.gz", dst := "./",
    extraOpts := [], tmpName := "/tmp/cpc-c3", dstIsDir := false,
    transportExit := 23, tmpNode := .absent, extractExit := 0 }

/-- Claim C3 counterexample: the transport exits 23, but the program
exits 1 rather than 23 — the propagating `sys.exit(23)` is replaced by
the `FileNotFoundError` that `os.unlink` raises in the `finally` block
(the temporary path was never created), and an uncaught exception makes
the interpreter exit with status 1. -/
theorem C3_counterexample :
    envC3.transportExit = 23 ∧ (mainRun envC3).exitCode = 1 ∧
    (mainRun envC3).exitCode ≠ envC3.transportExit :=
  ⟨rfl, by decide, by decide⟩

/-- Claim C3 (amended): the exit code is 0 on success; when a spawned
command exits non-zero the program prints a diagnostic naming the failed
command and terminates immediately (no further command is spawned) —
with the transport's exit code when no temporary path was allocated or
the temporary path holds a regular file at cleanup, but with code 1 when
extraction mode is enabled and the temporary path is missing or a
directory at cleanup (the `finally`-block `os.unlink` then raises,
replacing the `SystemExit`; forced by `C3_counterexample`); and the exit
code is 1 on extraction-precondition failure. -/
theorem C3_exit_codes_amended (e : Env) :
    (e.transportExit = 0 → e.shouldExtract = false → (mainRun e).exitCode = 0) ∧
    (e.transportExit = 0 → e.shouldExtract = true → e.tmpNode = .file →
      e.extractExit = 0 → (mainRun e).exitCode = 0) ∧
    (e.transportExit ≠ 0 →
      errMsg (transportCmd e) ∈ (mainRun e).printed ∧
      (mainRun e).commandsRun = [transportCmd e] ∧
      ((e.shouldExtract = false ∨ e.tmpNode = .file) →
        (mainRun e).exitCode = e.transportExit) ∧
      (e.shouldExtract = true → e.tmpNode ≠ .file → (mainRun e).exitCode = 1)) ∧
    (e.transportExit = 0 → e.shouldExtract = true → e.tmpNode = .file →
      e.extractExit ≠ 0 →
      errMsg (handle_extract_command e.tmpName e.dst) ∈ (mainRun e).printed ∧
      (mainRun e).exitCode = e.extractExit) ∧
    (e.transportExit = 0 → e.shouldExtract = true → e.tmpNode ≠ .file →
      (mainRun e).exitCode = 1) := by
  refine ⟨?_, ?_, ?_, ?_, ?_⟩
  · intro ht hx
    rw [mainRun_success_noextract e ht hx, finallyCleanup_exitCode_noextract e _ _ _ hx]
    rfl
  · intro ht hx hf ha
    rw [mainRun_success_extract e ht hx hf ha, finallyCleanup_exitCode_file e _ _ _ hf]
    rfl
  · intro h
    rw [mainRun_transport_fail e h]
    refine ⟨?_, finallyCleanup_commandsRun e _ _ _, ?_, ?_⟩
    · rw [finallyCleanup_printed]
      simp
    · rintro (hx | hf)
      · rw [finallyCleanup_exitCode_noextract e _ _ _ hx]; rfl
      · rw [finallyCleanup_exitCode_file e _ _ _ hf]; rfl
    · intro hx hn
      exact finallyCleanup_exitCode_bad e _ _ _ hx hn
  · intro ht hx hf ha
    rw [mainRun_extract_fail e ht hx hf ha]
    refine ⟨?_, ?_⟩
    · rw [finallyCleanup_printed]
      simp
    · rw [finallyCleanup_exitCode_file e _ _ _ hf]; rfl
  · intro ht hx hn
    rw [mainRun_precondition_fail e ht hx hn]
    exact finallyCleanup_exitCode_bad e _ _ _ hx hn

/-- Oracle for the C3 witness: a plain successful local copy. -/
def envC3w : Env :=
  { shouldExtract := false, shouldDig := false, src := "./a", dst := "./b",
    extraOpts := [], tmpName := "", dstIsDir := false,
    transportExit := 0, tmpNode := .absent, extractExit := 0 }

/-- Witness for C3 (amended) at the concrete environment `envC3w`. -/
theorem C3_witness : (mainRun envC3w).exitCode = 0 :=
  (C3_exit_codes_amended envC3w).1 rfl rfl

/-!
### Helper lemmas about the spill loop
-/

lemma lookupEntry_setEntry_self (es : List (String × Node)) (n : String) (v : Node) :
    lookupEntry (setEntry es n v) n = some v := by
  induction es with
  | nil => simp [setEntry, lookupEntry]
  | cons p rest ih =>
    obtain ⟨m, w⟩ := p
    by_cases h : m = n
    · simp [setEntry, lookupEntry, h]
    · simp [setEntry, lookupEntry, h, ih]

lemma lookupEntry_setEntry_ne (es : List (String × Node)) (n m : String) (v : Node)
    (h : m ≠ n) : lookupEntry (setEntry es m v) n = lookupEntry es n := by
  induction es with
  | nil => simp [setEntry, lookupEntry, h]
  | cons p rest ih =>
    obtain ⟨k, w⟩ := p
    by_cases hk : k = m
    · subst hk
      simp [setEntry, lookupEntry, h]
    · simp [setEntry, lookupEntry, hk, ih]

/-- Merging preserves every destination entry whose name does not occur
in the source (shutil.copytree with `dirs_exist_ok=True` keeps the
entries of the destination it does not copy over). -/
lemma lookupEntry_mergeEntries_fresh (dst src : List (String × Node)) (n : String)
    (h : ∀ p ∈ src, p.1 ≠ n) :
    lookupEntry (mergeEntries dst src) n = lookupEntry dst n := by
  induction src generalizing dst with
  | nil => simp [mergeEntries]
  | cons p rest ih =>
    obtain ⟨m, v⟩ := p
    have hm : m ≠ n := h (m, v) (List.mem_cons_self _ _)
    have hrest : ∀ q ∈ rest, q.1 ≠ n := fun q hq => h q (List.mem_cons_of_mem _ hq)
    cases v with
    | file =>
      rw [mergeEntries, ih _ hrest, lookupEntry_setEntry_ne _ _ _ _ hm]
    | dir ses =>
      simp only [mergeEntries]
      rw [ih _ hrest, lookupEntry_setEntry_ne _ _ _ _ hm]

lemma nodeSize_pos (v : Node) : 0 < nodeSize v := by
  cases v <;> simp [nodeSize]

lemma spillStep_eq_notDir (s : SpillState)
    (h : lookupEntry s.parent s.cur = none ∨ lookupEntry s.parent s.cur = some .file) :
    spillStep s = .notDir := by
  unfold spillStep
  rcases h with h | h <;> rw [h]

lemma spillStep_eq_single (s : SpillState) (n : String) (v : Node)
    (h : lookupEntry s.parent s.cur = some (.dir [(n, v)])) :
    spillStep s = .moved ⟨setEntry (setEntry s.parent s.cur (.dir [])) n v, n⟩ := by
  unfold spillStep
  rw [h]

lemma spillStep_eq_merge (s : SpillState) (es : List (String × Node))
    (h : lookupEntry s.parent s.cur = some (.dir es)) (hlen : es.length ≠ 1) :
    spillStep s = .merged (mergeEntries s.parent es) := by
  unfold spillStep
  rw [h]
  rcases es with _ | ⟨⟨n, v⟩, _ | ⟨⟨n2, v2⟩, rest⟩⟩
  · rfl
  · exact absurd rfl hlen
  · rfl

lemma spillRun_succ_notDir (fuel : Nat) (s : SpillState) (h : spillStep s = .notDir) :
    spillRun (fuel + 1) s = some (s.parent, 0) := by
  simp only [spillRun, h]

lemma spillRun_succ_merged (fuel : Nat) (s : SpillState) (p : List (String × Node))
    (h : spillStep s = .merged p) :
    spillRun (fuel + 1) s = some (p, 1) := by
  simp only [spillRun, h]

lemma spillRun_succ_moved (fuel : Nat) (s s2 : SpillState) (h : spillStep s = .moved s2) :
    spillRun (fuel + 1) s =
      match spillRun fuel s2 with
      | none => none
      | some (p, k) => some (p, k + 1) := by
  conv_lhs => rw [spillRun]
  rw [h]

/-- The loop variant strictly decreases at every `moved` step: the new
current path holds the single child, a strictly smaller subtree. -/
lemma curSize_moved (s s2 : SpillState) (h : spillStep s = .moved s2) :
    curSize s2 < curSize s := by
  unfold spillStep at h
  cases hl : lookupEntry s.parent s.cur with
  | none => rw [hl] at h; cases h
  | some v =>
    rw [hl] at h
    cases v with
    | file => cases h
    | dir es =>
      rcases es with _ | ⟨⟨n, w⟩, _ | ⟨⟨n2, w2⟩, rest⟩⟩
      · cases h
      · cases h
        simp only [curSize, lookupEntry_setEntry_self, hl, nodeSize, entriesSize]
        omega
      · cases h

/-- Fuel `N + 1` suffices for the spill loop whenever the tree at the
current path has at most `N` nodes. -/
lemma spill_bound (N : Nat) : ∀ s : SpillState, curSize s ≤ N →
    (spillRun (N + 1) s).isSome = true := by
  induction N with
  | zero =>
    intro s hs
    have h : lookupEntry s.parent s.cur = none := by
      cases hl : lookupEntry s.parent s.cur with
      | none => rfl
      | some v =>
        exfalso
        have h1 : 0 < nodeSize v := nodeSize_pos v
        have h2 : curSize s = nodeSize v := by simp [curSize, hl]
        omega
    rw [spillRun_succ_notDir 0 s (spillStep_eq_notDir s (Or.inl h))]
    rfl
  | succ N ih =>
    intro s hs
    cases hstep : spillStep s with
    | notDir => rw [spillRun_succ_notDir _ _ hstep]; rfl
    | merged p => rw [spillRun_succ_merged _ _ _ hstep]; rfl
    | moved s2 =>
      have hlt : curSize s2 < curSize s := curSize_moved s s2 hstep
      have h2 : (spillRun (N + 1) s2).isSome = true := ih s2 (by omega)
      obtain ⟨⟨p, k⟩, hpk⟩ := Option.isSome_iff_exists.1 h2
      rw [spillRun_succ_moved (N + 1) s s2 hstep, hpk]
      rfl

/-- The spec's spill scenario: the destination is a chain of single-child
directories three levels deep — `dst/d1/d2` — bottoming out at `d2`,
which holds two files. -/
def exampleDeep : Node :=
  .dir [("d1", .dir [("d2", .dir [("f1", .file), ("f2", .file)])])]

/-- Initial loop state for the scenario: `dst` is the only entry of its
parent directory. -/
def exampleStart : SpillState :=
  ⟨[("dst", exampleDeep)], "dst"⟩

/-- Final entries of the parent directory for the scenario: the husks of
`dst` and `d1` are left empty, `d2` was moved up with its two files, and
the merge copied `f1` and `f2` directly into the parent. -/
def exampleFinal : List (String × Node) :=
  [("dst", .dir []), ("d1", .dir []),
    ("d2", .dir [("f1", .file), ("f2", .file)]),
    ("f1", .file), ("f2", .file)]

/-- Claim C4: the spill loop stops immediately when the current path is
not a directory; on a single-entry directory it moves that entry into
the original destination's parent and continues with it as the new
current path; on a directory with zero or more-than-one entries it
merges the contents into the parent (keeping non-conflicting parent
entries) and stops after that one body run; and on the spec's scenario —
nested single-child directories three levels deep bottoming out at a
directory with two files — the loop body runs exactly 3 times and the
two files end up in the original destination's parent. -/
theorem C4_spill_loop_behavior :
    (∀ (s : SpillState) (fuel : Nat),
      lookupEntry s.parent s.cur = none ∨ lookupEntry s.parent s.cur = some .file →
      spillRun (fuel + 1) s = some (s.parent, 0)) ∧
    (∀ (s : SpillState) (n : String) (v : Node),
      lookupEntry s.parent s.cur = some (.dir [(n, v)]) →
      spillStep s = .moved ⟨setEntry (setEntry s.parent s.cur (.dir [])) n v, n⟩ ∧
      lookupEntry (setEntry (setEntry s.parent s.cur (.dir [])) n v) n = some v) ∧
    (∀ (s : SpillState) (es : List (String × Node)) (fuel : Nat),
      lookupEntry s.parent s.cur = some (.dir es) → es.length ≠ 1 →
      spillRun (fuel + 1) s = some (mergeEntries s.parent es, 1)) ∧
    (∀ (dst src : List (String × Node)) (n : String),
      (∀ p ∈ src, p.1 ≠ n) →
      lookupEntry (mergeEntries dst src) n = lookupEntry dst n) ∧
    (spillRun 4 exampleStart = some (exampleFinal, 3) ∧
      lookupEntry exampleFinal "f1" = some .file ∧
      lookupEntry exampleFinal "f2" = some .file) := by
  refine ⟨?_, ?_, ?_, ?_, ?_, ?_, ?_⟩
  · intro s fuel h
    exact spillRun_succ_notDir fuel s (spillStep_eq_notDir s h)
  · intro s n v h
    exact ⟨spillStep_eq_single s n v h, lookupEntry_setEntry_self _ _ _⟩
  · intro s es fuel h hlen
    exact spillRun_succ_merged fuel s _ (spillStep_eq_merge s es h hlen)
  · intro dst src n h
    exact lookupEntry_mergeEntries_fresh dst src n h
  · simp [spillRun, spillStep, exampleStart, exampleDeep, exampleFinal,
      lookupEntry, setEntry, mergeEntries]
  · simp [exampleFinal, lookupEntry]
  · simp [exampleFinal, lookupEntry]

/-- Witness for C4 at a concrete zero-entry directory: the loop body
runs once, merging nothing, and stops. -/
theorem C4_witness :
    spillRun 1 ⟨[("empty", Node.dir [])], "empty"⟩ =
      some (mergeEntries [("empty", Node.dir [])] [], 1) :=
  C4_spill_loop_behavior.2.2.1 ⟨[("empty", Node.dir [])], "empty"⟩ [] 0 rfl (by decide)

/-- Claim C10: for every finite directory tree the spill loop
terminates — fuel one more than the size of the tree at the current path
always suffices — because each single-entry step replaces the current
path by its only child, a strictly smaller subtree. -/
theorem C10_spill_terminates (s : SpillState) :
    (spillRun (curSize s + 1) s).isSome = true ∧
    ∀ s2, spillStep s = .moved s2 → curSize s2 < curSize s :=
  ⟨spill_bound (curSize s) s le_rfl, fun s2 h => curSize_moved s s2 h⟩

/-- Witness for C10 at a concrete one-child chain: the loop finishes
within the size bound, and the single `moved` step strictly decreases
the variant. -/
theorem C10_witness :
    (spillRun (curSize ⟨[("d", Node.dir [("a", Node.file)])], "d"⟩ + 1)
      ⟨[("d", Node.dir [("a", Node.file)])], "d"⟩).isSome = true ∧
    curSize ⟨[("d", Node.dir []), ("a", Node.file)], "a"⟩ <
      curSize ⟨[("d", Node.dir [("a", Node.file)])], "d"⟩ :=
  ⟨(C10_spill_terminates ⟨[("d", Node.dir [("a", Node.file)])], "d"⟩).1,
    (C10_spill_terminates ⟨[("d", Node.dir [("a", Node.file)])], "d"⟩).2
      ⟨[("d", Node.dir []), ("a", Node.file)], "a"⟩ rfl⟩

end Cpc
